import Mathlib

/-!
Shallow embedding of the cts-serial-monitor program (src/src/cts_monitor.c,
src/src/main.c, src/include/cts_monitor.h) and proofs about it.

The C program's impure calls (ioctl, open, fopen, libusb / libftdi calls,
clock_gettime) are modelled by passing their outcomes explicitly: a `World`
record holds the outcome of each call made during initialization, and the
sampling functions take the read outcome (`Option Nat`, the raw status
bitmask or FTDI pin byte) as an argument.  The process-wide mutable state
(the static variables of cts_monitor.c) is the `Monitor` structure, passed
and returned explicitly.
-/

namespace CtsSerialMonitor

/-- Time format options (cts_monitor.h, `time_format_t`). -/
inductive TimeFormat where
  | absolute
  | relative
deriving DecidableEq, Repr

/-- Monitor mode options (cts_monitor.h, `monitor_mode_t`). -/
inductive MonitorMode where
  | polling
  | irq
deriving DecidableEq, Repr

/-- Device type (cts_monitor.h, `device_type_t`). -/
inductive DeviceType where
  | standard
  | ftdi
deriving DecidableEq, Repr

/-- One sample of the four control lines (cts_monitor.h, `signal_state_t`).
The C fields are ints that are always assigned 0 or 1, so `Bool` is faithful. -/
structure SignalState where
  cts : Bool
  rts : Bool
  dsr : Bool
  dtr : Bool
deriving DecidableEq, Repr, Fintype

/-- Monitor configuration (cts_monitor.h, `monitor_config_t`). -/
structure MonitorConfig where
  serial_device : String
  poll_interval_us : Int
  time_format : TimeFormat
  output_file : Option String
  verbose : Bool
  mode : MonitorMode
  device_type : DeviceType
deriving DecidableEq, Repr

/-- The state of the `output_fp` static: NULL, stdout, or an opened file. -/
inductive OutDest where
  | closed
  | toStdout
  | toFile (path : String)
deriving DecidableEq, Repr

/-- The static variables of cts_monitor.c in one record.  `serialOpen`
stands for `serial_fd >= 0` (an open descriptor); at process start every
static is zero-initialized. -/
structure Monitor where
  initialized : Bool
  serialOpen : Bool
  outputFp : OutDest
  config : MonitorConfig
  lastState : SignalState
  irqModeActive : Bool
  usingFtdi : Bool
  ftdiInitialized : Bool
deriving DecidableEq, Repr

/-- The zero-initialized `monitor_config_t` static (`current_config`). -/
def zeroConfig : MonitorConfig :=
  { serial_device := ""
    poll_interval_us := 0
    time_format := TimeFormat.absolute
    output_file := none
    verbose := false
    mode := MonitorMode.polling
    device_type := DeviceType.standard }

/-- The statics of cts_monitor.c at process start (zero-initialized). -/
def initialMonitor : Monitor :=
  { initialized := false
    serialOpen := false
    outputFp := OutDest.closed
    config := zeroConfig
    lastState := { cts := false, rts := false, dsr := false, dtr := false }
    irqModeActive := false
    usingFtdi := false
    ftdiInitialized := false }

/-- Linux modem-control bits used by `read_signal_state`. -/
def TIOCM_DTR : Nat := 0x002
def TIOCM_RTS : Nat := 0x004
def TIOCM_CTS : Nat := 0x020
def TIOCM_DSR : Nat := 0x100

/-- `read_signal_state` (cts_monitor.c:61-77), the pure bitmask-to-sample
mapping applied to a successful `ioctl(TIOCMGET)` status word. -/
def read_signal_state (status : Nat) : SignalState :=
  { cts := status &&& TIOCM_CTS != 0
    rts := status &&& TIOCM_RTS != 0
    dsr := status &&& TIOCM_DSR != 0
    dtr := status &&& TIOCM_DTR != 0 }

/-- A status word whose `read_signal_state` decoding is the given sample. -/
def encode_status (s : SignalState) : Nat :=
  (if s.cts then TIOCM_CTS else 0) + (if s.rts then TIOCM_RTS else 0) +
  (if s.dsr then TIOCM_DSR else 0) + (if s.dtr then TIOCM_DTR else 0)

/-- FTDI bitbang pin byte to sample mapping (cts_monitor.c:151-155 and
563-567): CTS bit 4, RTS bit 5, DSR bit 6, DTR bit 7. -/
def read_ftdi_pins (pins : Nat) : SignalState :=
  { cts := pins &&& 0x10 != 0
    rts := pins &&& 0x20 != 0
    dsr := pins &&& 0x40 != 0
    dtr := pins &&& 0x80 != 0 }

/-- The signal names passed to `log_signal_change`. -/
inductive SigName where
  | CTS
  | RTS
  | DSR
  | DTR
deriving DecidableEq, Repr, Fintype

/-- One emitted change: the arguments of one `log_signal_change` call
(cts_monitor.c:80-93): signal name, old level, new level. -/
structure Event where
  name : SigName
  oldVal : Bool
  newVal : Bool
deriving DecidableEq, Repr, Fintype

/-- The change-detection block shared verbatim by `cts_monitor_update`
(cts_monitor.c:270-288), `cts_monitor_process_irq_events` (414-436) and
`cts_monitor_update_ftdi` (571-593): compare field by field in the order
CTS, RTS, DSR, DTR, log CTS/RTS changes always and DSR/DTR changes only
when verbose. -/
def emit_changes (verbose : Bool) (last current : SignalState) : List Event :=
  (if current.cts != last.cts then [{ name := SigName.CTS, oldVal := last.cts, newVal := current.cts }] else []) ++
  (if current.rts != last.rts then [{ name := SigName.RTS, oldVal := last.rts, newVal := current.rts }] else []) ++
  (if verbose then
    (if current.dsr != last.dsr then [{ name := SigName.DSR, oldVal := last.dsr, newVal := current.dsr }] else []) ++
    (if current.dtr != last.dtr then [{ name := SigName.DTR, oldVal := last.dtr, newVal := current.dtr }] else [])
   else [])

/-- `cts_monitor_update_ftdi` (cts_monitor.c:546-599).  `pinsRes` is the
outcome of `ftdi_read_pins`.  Returns (result, new statics, emitted events);
the result is the number of events processed, or -1 on failure. -/
def cts_monitor_update_ftdi (m : Monitor) (pinsRes : Option Nat) :
    Int × Monitor × List Event :=
  if m.ftdiInitialized = false then (-1, m, [])
  else
    match pinsRes with
    | none => (-1, m, [])
    | some pins =>
      let current := read_ftdi_pins pins
      let evs := emit_changes m.config.verbose m.lastState current
      ((evs.length : Int), { m with lastState := current }, evs)

/-- `cts_monitor_update` (cts_monitor.c:251-294).  `readRes` is the outcome
of the `ioctl(TIOCMGET)` inside `read_signal_state` (`none` = failure). -/
def cts_monitor_update (m : Monitor) (readRes : Option Nat) :
    Int × Monitor × List Event :=
  if m.initialized = false then (-1, m, [])
  else if m.usingFtdi then cts_monitor_update_ftdi m readRes
  else
    match readRes with
    | none => (-1, m, [])
    | some status =>
      let current := read_signal_state status
      let evs := emit_changes m.config.verbose m.lastState current
      (0, { m with lastState := current }, evs)

/-- `cts_monitor_process_irq_events` (cts_monitor.c:394-442). -/
def cts_monitor_process_irq_events (m : Monitor) (readRes : Option Nat) :
    Int × Monitor × List Event :=
  if m.initialized = false ∨ m.irqModeActive = false then (-1, m, [])
  else if m.usingFtdi then cts_monitor_update_ftdi m readRes
  else
    match readRes with
    | none => (-1, m, [])
    | some status =>
      let current := read_signal_state status
      let evs := emit_changes m.config.verbose m.lastState current
      ((evs.length : Int), { m with lastState := current }, evs)

/-- `cts_monitor_get_state` (cts_monitor.c:338-344): `none` in the second
component means the caller's buffer was not filled. -/
def cts_monitor_get_state (m : Monitor) (readRes : Option Nat) :
    Int × Option SignalState :=
  if m.initialized = false then (-1, none)
  else
    match readRes with
    | none => (-1, none)
    | some status => (0, some (read_signal_state status))

/-- `cts_monitor_start_irq` (cts_monitor.c:347-376); `setup_signal_io`
always succeeds (cts_monitor.c:96-109). -/
def cts_monitor_start_irq (m : Monitor) : Int × Monitor :=
  if m.initialized = false then (-1, m)
  else if m.config.mode ≠ MonitorMode.irq then (-1, m)
  else if m.irqModeActive then (0, m)
  else (0, { m with irqModeActive := true })

/-- `cts_monitor_stop_irq` (cts_monitor.c:379-391). -/
def cts_monitor_stop_irq (m : Monitor) : Int × Monitor :=
  if m.irqModeActive = false then (0, m)
  else (0, { m with irqModeActive := false })

/-- The outcomes of the impure calls made during one initialization:
libusb enumeration, libftdi open/mode-set, the `open`/`tcgetattr`/
`tcsetattr`/`fopen` calls of the standard path, the FTDI initial pin read
and the standard path's initial `ioctl(TIOCMGET)` (for reads, `none` means
the call failed). -/
structure World where
  usbInitOk : Bool
  usbListOk : Bool
  usbDevices : List (Nat × Nat)
  ftdiInitOk : Bool
  ftdiUsbOpenOk : Bool
  ftdiBitmodeOk : Bool
  ftdiPins : Option Nat
  openOk : Bool
  tcgetOk : Bool
  tcsetOk : Bool
  fopenOk : Bool
  ioctlStatus : Option Nat
deriving DecidableEq, Repr

/-- The FTDI product identifiers recognized by the detector
(cts_monitor.c:479-483). -/
def ftdiProductIds : List Nat := [0x6001, 0x6010, 0x6011, 0x6014, 0x6015]

/-- `cts_monitor_is_ftdi_device` (cts_monitor.c:446-494).  Returns the C
result (1 FTDI found, 0 not, -1 libusb error) paired with whether the USB
bus was enumerated at all: a path that does not start with `/dev/ttyUSB`
returns 0 before any libusb call.  A device whose descriptor read fails is
skipped, which is the same as its absence from `usbDevices`. -/
def cts_monitor_is_ftdi_device (path : String) (w : World) : Int × Bool :=
  if List.isPrefixOf "/dev/ttyUSB".toList path.toList = false then (0, false)
  else if w.usbInitOk = false then (-1, true)
  else if w.usbListOk = false then (-1, true)
  else
    (if w.usbDevices.any (fun d => d.1 == 0x0403 && ftdiProductIds.contains d.2)
     then 1 else 0, true)

/-- `cts_monitor_init_ftdi` (cts_monitor.c:497-543): ftdi_init, then the
chain of `ftdi_usb_open` attempts (collapsed into one success flag), then
`ftdi_set_bitmode`.  On any failure the context is deinitialized and the
statics are unchanged. -/
def cts_monitor_init_ftdi (m : Monitor) (w : World) : Int × Monitor :=
  if m.ftdiInitialized then (0, m)
  else if w.ftdiInitOk = false then (-1, m)
  else if w.ftdiUsbOpenOk = false then (-1, m)
  else if w.ftdiBitmodeOk = false then (-1, m)
  else (0, { m with ftdiInitialized := true, usingFtdi := true })

/-- The standard-serial part of `cts_monitor_init` (cts_monitor.c:176-248):
open the device, configure it, open the output destination, read the
initial sample.  Every failure closes what was opened and returns -1. -/
def standard_serial_init (m0 : Monitor) (w : World) : Int × Monitor :=
  let m := { m0 with usingFtdi := false }
  if w.openOk = false then (-1, m)
  else
    let m := { m with serialOpen := true }
    if w.tcgetOk = false then (-1, { m with serialOpen := false })
    else if w.tcsetOk = false then (-1, { m with serialOpen := false })
    else
      let outcome : Option Monitor :=
        match m.config.output_file with
        | some path =>
          if w.fopenOk then some { m with outputFp := OutDest.toFile path } else none
        | none => some { m with outputFp := OutDest.toStdout }
      match outcome with
      | none => (-1, { m with serialOpen := false })
      | some m1 =>
        match w.ioctlStatus with
        | none =>
          (-1, { m1 with
                  outputFp := match m1.outputFp with
                              | OutDest.toFile _ => OutDest.closed
                              | d => d
                  serialOpen := false })
        | some status =>
          (0, { m1 with lastState := read_signal_state status, initialized := true })

/-- `cts_monitor_init` (cts_monitor.c:120-249).  Already initialized is a
no-op success; otherwise the config is copied, the FTDI path is attempted
when detection returns 1 (with a fallthrough to the standard path on FTDI
init failure), and the standard path otherwise. -/
def cts_monitor_init (m : Monitor) (config : MonitorConfig) (w : World) :
    Int × Monitor :=
  if m.initialized then (0, m)
  else
    let m := { m with config := config }
    if (cts_monitor_is_ftdi_device config.serial_device w).1 = 1 then
      let r := cts_monitor_init_ftdi m w
      if r.1 = 0 then
        let m2 := { r.2 with usingFtdi := true }
        let m3 :=
          match w.ftdiPins with
          | some pins => { m2 with lastState := read_ftdi_pins pins }
          | none => m2
        (0, { m3 with initialized := true })
      else
        standard_serial_init r.2 w
    else
      standard_serial_init m w

/-- `cts_monitor_cleanup_ftdi` (cts_monitor.c:602-615). -/
def cts_monitor_cleanup_ftdi (m : Monitor) : Monitor :=
  if m.ftdiInitialized = false then m
  else { m with ftdiInitialized := false, usingFtdi := false }

/-- `cts_monitor_cleanup` (cts_monitor.c:296-335): no-op when not
initialized; otherwise stop IRQ mode, clean up FTDI when in use, close the
serial descriptor, close the output file when it is an owned file (stdout
stays), and clear `initialized`. -/
def cts_monitor_cleanup (m : Monitor) : Monitor :=
  if m.initialized = false then m
  else
    let m1 := if m.irqModeActive then (cts_monitor_stop_irq m).2 else m
    let m2 := if m1.usingFtdi then cts_monitor_cleanup_ftdi m1 else m1
    let m3 := if m2.serialOpen then { m2 with serialOpen := false } else m2
    let m4 :=
      match m3.outputFp with
      | OutDest.toFile _ => { m3 with outputFp := OutDest.closed }
      | _ => m3
    { m4 with initialized := false }

/-! ### The timestamp formatter (cts_monitor.c:35-58, relative branch) -/

/-- A wall-clock instant as `struct timespec`. -/
structure Timespec where
  sec : Int
  nsec : Int
deriving DecidableEq, Repr

/-- One decimal digit as printf renders it. -/
def decDigit (d : Nat) : Char := Char.ofNat (48 + d)

/-- The decimal digits of a natural number, most significant first, one
digit peeled per unit of fuel; `n + 1` units always suffice. -/
def natDecCharsAux : Nat → Nat → List Char
  | 0, _ => []
  | fuel + 1, n =>
    if n < 10 then [decDigit n]
    else natDecCharsAux fuel (n / 10) ++ [decDigit (n % 10)]

/-- The decimal digits of a natural number, most significant first, as
printf `%lld` renders a non-negative value. -/
def natDecChars (n : Nat) : List Char := natDecCharsAux (n + 1) n

/-- printf zero-padding: pad on the left with `'0'` up to width `k`; a
longer rendering is kept whole, exactly as printf minimum width works. -/
def zeroPadLeft (k : Nat) (s : List Char) : List Char :=
  List.replicate (k - s.length) '0' ++ s

/-- printf `%lld`. -/
def printf_lld (n : Int) : String :=
  if n < 0 then String.mk ('-' :: natDecChars (-n).toNat)
  else String.mk (natDecChars n.toNat)

/-- printf `%06lld`: minimum width 6, zero padded (the sign counts toward
the width and precedes the zeros). -/
def printf_06lld (n : Int) : String :=
  if n < 0 then String.mk ('-' :: zeroPadLeft 5 (natDecChars (-n).toNat))
  else String.mk (zeroPadLeft 6 (natDecChars n.toNat))

/-- The relative branch of `get_timestamp` (cts_monitor.c:44-57): subtract
the recorded start time with nanosecond borrow, convert to microseconds and
render as `%lld.%06lld` of the quotient and remainder by 10^6.  C `/` and
`%` on `long long` truncate toward zero, which is `Int.tdiv` / `Int.tmod`. -/
def get_timestamp_rel (now start : Timespec) : String :=
  let dsec0 := now.sec - start.sec
  let dnsec0 := now.nsec - start.nsec
  let dsec := if dnsec0 < 0 then dsec0 - 1 else dsec0
  let dnsec := if dnsec0 < 0 then dnsec0 + 1000000000 else dnsec0
  let total_us := dsec * 1000000 + dnsec.tdiv 1000
  printf_lld (total_us.tdiv 1000000) ++ "." ++ printf_06lld (total_us.tmod 1000000)

/-! ### The launcher (src/src/main.c) -/

/-- C `isspace` on the default locale, as `atoi` skips leading blanks. -/
def c_isspace (c : Char) : Bool :=
  c == ' ' || c == '\t' || c == '\n' || c.toNat == 11 || c.toNat == 12 || c == '\r'

/-- Leading whitespace removal inside `atoi`. -/
def skipSpaces : List Char → List Char
  | [] => []
  | c :: cs => if c_isspace c then skipSpaces cs else c :: cs

/-- The digit-accumulation loop of `atoi`: read decimal digits until the
first non-digit. -/
def atoiDigits : List Char → Nat → Nat
  | [], acc => acc
  | c :: cs, acc =>
    if c.isDigit then atoiDigits cs (acc * 10 + (c.toNat - 48)) else acc

/-- C `atoi`: skip whitespace, optional sign, then leading digits; 0 when
no digit follows. -/
def atoi (s : String) : Int :=
  match skipSpaces s.toList with
  | '-' :: rest => -(atoiDigits rest 0 : Int)
  | '+' :: rest => (atoiDigits rest 0 : Int)
  | cs => (atoiDigits cs 0 : Int)

/-- The mutable locals of `main`'s argument-parsing loop (main.c:49-54)
with their initial values. -/
structure ParseState where
  verbose : Bool
  poll_interval_us : Int
  serial_device : Option String
  output_file : Option String
  time_format : TimeFormat
  mode : MonitorMode
deriving DecidableEq, Repr

/-- `main`'s locals before the loop: interval 1000, absolute time,
polling mode, no device, no output file, not verbose. -/
def parseStart : ParseState :=
  { verbose := false
    poll_interval_us := 1000
    serial_device := none
    output_file := none
    time_format := TimeFormat.absolute
    mode := MonitorMode.polling }

/-- What `main` does after (or instead of finishing) argument parsing:
exit with a code before touching the monitor, or proceed with a config. -/
inductive ParseOutcome where
  | exitEarly (code : Nat)
  | proceed (config : MonitorConfig)
deriving DecidableEq, Repr

/-- The argument-parsing loop of `main` (main.c:57-153), including the
missing-device check and the construction of `monitor_config_t`.  Help
exits 0; every parse error exits `EXIT_FAILURE` (1) before the monitor is
touched.  An argument whose first character is not `-` is the device. -/
def parse_args : List String → ParseState → ParseOutcome
  | [], st =>
    match st.serial_device with
    | none => ParseOutcome.exitEarly 1
    | some dev =>
      ParseOutcome.proceed
        { serial_device := dev
          poll_interval_us := st.poll_interval_us
          time_format := st.time_format
          output_file := st.output_file
          verbose := st.verbose
          mode := st.mode
          device_type := DeviceType.standard }
  | a :: rest, st =>
    if a == "-h" || a == "--help" then ParseOutcome.exitEarly 0
    else if a == "-v" || a == "--verbose" then
      parse_args rest { st with verbose := true }
    else if a == "-m" then
      match rest with
      | [] => ParseOutcome.exitEarly 1
      | v :: rest2 =>
        if v == "poll" then parse_args rest2 { st with mode := MonitorMode.polling }
        else if v == "irq" then parse_args rest2 { st with mode := MonitorMode.irq }
        else ParseOutcome.exitEarly 1
    else if a == "-i" then
      match rest with
      | [] => ParseOutcome.exitEarly 1
      | v :: rest2 =>
        if atoi v < 100 then ParseOutcome.exitEarly 1
        else parse_args rest2 { st with poll_interval_us := atoi v }
    else if a == "-f" then
      match rest with
      | [] => ParseOutcome.exitEarly 1
      | v :: rest2 =>
        if v == "abs" then parse_args rest2 { st with time_format := TimeFormat.absolute }
        else if v == "rel" then parse_args rest2 { st with time_format := TimeFormat.relative }
        else ParseOutcome.exitEarly 1
    else if a == "-o" then
      match rest with
      | [] => ParseOutcome.exitEarly 1
      | v :: rest2 => parse_args rest2 { st with output_file := some v }
    else if (a.toList.head?.map (· == '-')).getD false = false then
      match st.serial_device with
      | none => parse_args rest { st with serial_device := some a }
      | some _ => ParseOutcome.exitEarly 1
    else ParseOutcome.exitEarly 1

/-- The monitoring loop of `main` (main.c:186-204).  The schedule is the
sequence of read outcomes the loop will see; its end models the external
stop flag (`running`) turning false.  Returns the final statics and
whether the loop ended by `break` on a failed update (true) or by the stop
flag (false). -/
def monitor_loop (m : Monitor) : List (Option Nat) → Monitor × Bool
  | [] => (m, false)
  | r :: rest =>
    if m.config.mode = MonitorMode.polling then
      let u := cts_monitor_update m r
      if u.1 ≠ 0 then (u.2.1, true) else monitor_loop u.2.1 rest
    else
      let u := cts_monitor_process_irq_events m r
      if u.1 < 0 then (u.2.1, true) else monitor_loop u.2.1 rest

/-- What one full run of `main` did: the process exit code, whether
`cts_monitor_init` was reached, and whether the monitoring loop ended on a
failed read. -/
structure RunResult where
  exitCode : Nat
  initCalled : Bool
  loopReadFailed : Bool
deriving DecidableEq, Repr

/-- `main` (main.c:48-214): parse arguments, initialize, optionally start
IRQ mode, run the loop, clean up.  After the loop, `main` returns
`EXIT_SUCCESS` (0) whether the loop ended on the stop flag or on a failed
read (main.c:206-213). -/
def run_main (args : List String) (w : World) (sched : List (Option Nat)) :
    RunResult :=
  match parse_args args parseStart with
  | ParseOutcome.exitEarly c =>
    { exitCode := c, initCalled := false, loopReadFailed := false }
  | ParseOutcome.proceed cfg =>
    let r := cts_monitor_init initialMonitor cfg w
    if r.1 ≠ 0 then
      { exitCode := 1, initCalled := true, loopReadFailed := false }
    else if cfg.mode = MonitorMode.irq then
      let ri := cts_monitor_start_irq r.2
      if ri.1 ≠ 0 then
        let _ := cts_monitor_cleanup ri.2
        { exitCode := 1, initCalled := true, loopReadFailed := false }
      else
        let lp := monitor_loop ri.2 sched
        let _ := cts_monitor_cleanup lp.1
        { exitCode := 0, initCalled := true, loopReadFailed := lp.2 }
    else
      let lp := monitor_loop r.2 sched
      let _ := cts_monitor_cleanup lp.1
      { exitCode := 0, initCalled := true, loopReadFailed := lp.2 }

/-! ### Concrete fixtures used by individual theorems -/

/-- A world in which every impure call succeeds and no FTDI device is on
the USB bus. -/
def w_ok : World :=
  { usbInitOk := true
    usbListOk := true
    usbDevices := []
    ftdiInitOk := true
    ftdiUsbOpenOk := true
    ftdiBitmodeOk := true
    ftdiPins := some 0
    openOk := true
    tcgetOk := true
    tcsetOk := true
    fopenOk := true
    ioctlStatus := some 0 }

/-- A world in which an FT232R sits on the USB bus and every FTDI call
succeeds. -/
def w_ftdi : World := { w_ok with usbDevices := [(0x0403, 0x6001)] }

/-- Same as `w_ftdi` except that the initial `ftdi_read_pins` fails. -/
def w_ftdi_nopins : World := { w_ftdi with ftdiPins := none }

/-- A config naming a USB-serial device path, no output file, not verbose. -/
def cfg_ttyusb : MonitorConfig := { zeroConfig with serial_device := "/dev/ttyUSB0" }

/-! ### Helper lemmas -/

/-- Decoding a status word built by `encode_status` recovers the sample. -/
theorem read_encode (s : SignalState) : read_signal_state (encode_status s) = s := by
  revert s; decide

/-- The change-detection block, characterized as the spec states it: one
event per differing reported field, none per identical field, DSR/DTR
gated on verbosity, and the emitted names in the fixed order CTS, RTS,
DSR, DTR (a sublist of that sequence). -/
theorem emit_changes_spec : ∀ (v : Bool) (old new : SignalState),
    ((emit_changes v old new).countP (fun e => e.name == SigName.CTS)
      = if new.cts ≠ old.cts then 1 else 0)
    ∧ ((emit_changes v old new).countP (fun e => e.name == SigName.RTS)
      = if new.rts ≠ old.rts then 1 else 0)
    ∧ ((emit_changes v old new).countP (fun e => e.name == SigName.DSR)
      = if v = true ∧ new.dsr ≠ old.dsr then 1 else 0)
    ∧ ((emit_changes v old new).countP (fun e => e.name == SigName.DTR)
      = if v = true ∧ new.dtr ≠ old.dtr then 1 else 0)
    ∧ List.Sublist ((emit_changes v old new).map Event.name)
        [SigName.CTS, SigName.RTS, SigName.DSR, SigName.DTR] := by
  decide

/-- A successful polling update emits exactly the change-detection block's
events. -/
theorem update_events_eq (m : Monitor) (st : Nat)
    (hinit : m.initialized = true) (hftdi : m.usingFtdi = false) :
    cts_monitor_update m (some st)
      = (0, { m with lastState := read_signal_state st },
          emit_changes m.config.verbose m.lastState (read_signal_state st)) := by
  simp [cts_monitor_update, hinit, hftdi]

/-- A successful IRQ-mode step emits exactly the change-detection block's
events and returns their number. -/
theorem irq_events_eq (m : Monitor) (st : Nat)
    (hinit : m.initialized = true) (hftdi : m.usingFtdi = false)
    (hirq : m.irqModeActive = true) :
    cts_monitor_process_irq_events m (some st)
      = (((emit_changes m.config.verbose m.lastState (read_signal_state st)).length : Int),
          { m with lastState := read_signal_state st },
          emit_changes m.config.verbose m.lastState (read_signal_state st)) := by
  simp [cts_monitor_process_irq_events, hinit, hftdi, hirq]

/-- An initialized, IRQ-active monitor on the standard backend, used to
instantiate theorems with hypotheses. -/
def mEx : Monitor := { initialMonitor with initialized := true, irqModeActive := true }

/-! ### Claim theorems -/

/-- C1: one update step (`cts_monitor_update` or
`cts_monitor_process_irq_events`) over samples (old, new) emits exactly one
event per differing reported field and none per identical field, in the
fixed comparison order CTS, RTS, DSR, DTR; CTS/RTS differences are reported
for both verbose values, DSR/DTR differences if and only if verbose is
true.  Both entry points emit the same events, and the IRQ entry point
returns their number. -/
theorem one_event_per_changed_reported_field
    (m : Monitor) (old new : SignalState) (verbose : Bool)
    (hinit : m.initialized = true) (hftdi : m.usingFtdi = false)
    (hirq : m.irqModeActive = true)
    (hverb : m.config.verbose = verbose) (hlast : m.lastState = old) :
    ((cts_monitor_update m (some (encode_status new))).2.2.countP
        (fun e => e.name == SigName.CTS) = if new.cts ≠ old.cts then 1 else 0)
    ∧ ((cts_monitor_update m (some (encode_status new))).2.2.countP
        (fun e => e.name == SigName.RTS) = if new.rts ≠ old.rts then 1 else 0)
    ∧ ((cts_monitor_update m (some (encode_status new))).2.2.countP
        (fun e => e.name == SigName.DSR)
        = if verbose = true ∧ new.dsr ≠ old.dsr then 1 else 0)
    ∧ ((cts_monitor_update m (some (encode_status new))).2.2.countP
        (fun e => e.name == SigName.DTR)
        = if verbose = true ∧ new.dtr ≠ old.dtr then 1 else 0)
    ∧ List.Sublist ((cts_monitor_update m (some (encode_status new))).2.2.map Event.name)
        [SigName.CTS, SigName.RTS, SigName.DSR, SigName.DTR]
    ∧ (cts_monitor_process_irq_events m (some (encode_status new))).2.2
        = (cts_monitor_update m (some (encode_status new))).2.2
    ∧ (cts_monitor_process_irq_events m (some (encode_status new))).1
        = ((cts_monitor_update m (some (encode_status new))).2.2.length : Int) := by
  have hu := update_events_eq m (encode_status new) hinit hftdi
  have hi := irq_events_eq m (encode_status new) hinit hftdi hirq
  have hs := emit_changes_spec verbose old new
  simp only [hu, hi, read_encode, hverb, hlast]
  exact ⟨hs.1, hs.2.1, hs.2.2.1, hs.2.2.2.1, hs.2.2.2.2, trivial, trivial⟩

/-- C1 witness: a CTS rising edge on a non-verbose monitor yields exactly
one CTS event. -/
theorem one_event_per_changed_reported_field_witness :
    (cts_monitor_update mEx
        (some (encode_status { cts := true, rts := false, dsr := false, dtr := false }))).2.2.countP
      (fun e => e.name == SigName.CTS) = 1 := by
  have h := one_event_per_changed_reported_field mEx
    { cts := false, rts := false, dsr := false, dtr := false }
    { cts := true, rts := false, dsr := false, dtr := false }
    false rfl rfl rfl rfl rfl
  simpa using h.1

/-- C9: when the backend status read fails, both update entry points
return -1, emit no events and leave the statics (in particular
`last_state`) exactly as they were, so a subsequent call behaves as if the
failed call had never happened. -/
theorem read_failure_preserves_state (m : Monitor) (r : Option Nat) :
    cts_monitor_update m none = (-1, m, [])
    ∧ cts_monitor_process_irq_events m none = (-1, m, [])
    ∧ cts_monitor_update (cts_monitor_update m none).2.1 r = cts_monitor_update m r
    ∧ cts_monitor_process_irq_events (cts_monitor_process_irq_events m none).2.1 r
        = cts_monitor_process_irq_events m r := by
  have h1 : cts_monitor_update m none = (-1, m, []) := by
    cases hI : m.initialized <;> cases hF : m.usingFtdi <;>
      cases hD : m.ftdiInitialized <;>
      simp [cts_monitor_update, cts_monitor_update_ftdi, hI, hF, hD]
  have h2 : cts_monitor_process_irq_events m none = (-1, m, []) := by
    cases hI : m.initialized <;> cases hA : m.irqModeActive <;>
      cases hF : m.usingFtdi <;> cases hD : m.ftdiInitialized <;>
      simp [cts_monitor_process_irq_events, cts_monitor_update_ftdi, hI, hA, hF, hD]
  exact ⟨h1, h2, by rw [h1], by rw [h2]⟩

/-- C10: `cts_monitor_update`, `cts_monitor_process_irq_events`,
`cts_monitor_get_state` and `cts_monitor_start_irq` called before a
successful init return -1 without consulting the hardware (the result does
not depend on the read outcome) and without modifying the statics;
`cts_monitor_process_irq_events` also returns -1 whenever IRQ mode has not
been started. -/
theorem ops_require_init (m : Monitor) (r : Option Nat) :
    (m.initialized = false →
      cts_monitor_update m r = (-1, m, [])
      ∧ cts_monitor_process_irq_events m r = (-1, m, [])
      ∧ cts_monitor_get_state m r = (-1, none)
      ∧ cts_monitor_start_irq m = (-1, m))
    ∧ (m.irqModeActive = false →
      cts_monitor_process_irq_events m r = (-1, m, [])) := by
  constructor
  · intro h
    refine ⟨?_, ?_, ?_, ?_⟩
    · simp [cts_monitor_update, h]
    · simp [cts_monitor_process_irq_events, h]
    · simp [cts_monitor_get_state, h]
    · simp [cts_monitor_start_irq, h]
  · intro h
    simp [cts_monitor_process_irq_events, h]

/-- C10 witness: at process start every operation refuses with -1. -/
theorem ops_require_init_witness :
    cts_monitor_update initialMonitor none = (-1, initialMonitor, [])
    ∧ cts_monitor_get_state initialMonitor none = (-1, none)
    ∧ cts_monitor_start_irq initialMonitor = (-1, initialMonitor)
    ∧ cts_monitor_process_irq_events initialMonitor none = (-1, initialMonitor, []) := by
  have h := ops_require_init initialMonitor none
  exact ⟨(h.1 rfl).1, (h.1 rfl).2.2.1, (h.1 rfl).2.2.2, h.2 rfl⟩

/-- C6: `cts_monitor_cleanup` is idempotent, is a no-op before any
successful init, and after running on an initialized monitor the serial
descriptor is closed, no owned output file remains open, the FTDI handle
(when it was in use) is released, and the monitor is no longer
initialized. -/
theorem cleanup_idempotent (m : Monitor) :
    cts_monitor_cleanup (cts_monitor_cleanup m) = cts_monitor_cleanup m
    ∧ (cts_monitor_cleanup m).initialized = false
    ∧ (m.initialized = false → cts_monitor_cleanup m = m)
    ∧ (m.initialized = true →
        (cts_monitor_cleanup m).serialOpen = false
        ∧ (∀ p, (cts_monitor_cleanup m).outputFp ≠ OutDest.toFile p)
        ∧ (m.usingFtdi = true → m.ftdiInitialized = true →
            (cts_monitor_cleanup m).ftdiInitialized = false
            ∧ (cts_monitor_cleanup m).usingFtdi = false)) := by
  obtain ⟨ini, so, ofp, cfg, ls, irq, uf, fi⟩ := m
  cases ini <;> cases so <;> cases irq <;> cases uf <;> cases fi <;>
    rcases ofp with _ | _ | p <;>
    simp [cts_monitor_cleanup, cts_monitor_stop_irq, cts_monitor_cleanup_ftdi]

/-- A fully active monitor: initialized, serial open, owned output file,
IRQ active, FTDI in use. -/
def mFull : Monitor :=
  { initialMonitor with
      initialized := true
      serialOpen := true
      outputFp := OutDest.toFile "log.txt"
      irqModeActive := true
      usingFtdi := true
      ftdiInitialized := true }

/-- C6 witness: cleanup of a fully active monitor owning an output file,
applied twice. -/
theorem cleanup_idempotent_witness :
    (cts_monitor_cleanup (cts_monitor_cleanup mFull) = cts_monitor_cleanup mFull)
    ∧ (cts_monitor_cleanup mFull).serialOpen = false
    ∧ (cts_monitor_cleanup mFull).initialized = false
    ∧ cts_monitor_cleanup initialMonitor = initialMonitor := by
  have h := cleanup_idempotent mFull
  have h0 := cleanup_idempotent initialMonitor
  exact ⟨h.1, (h.2.2.2 rfl).1, h.2.1, h0.2.2.1 rfl⟩

/-- When FTDI detection is not positive, or any step of the FTDI open
fails, `cts_monitor_init` is exactly the standard-backend initialization
applied to the config-carrying statics. -/
theorem init_fallback_eq (m : Monitor) (cfg : MonitorConfig) (w : World)
    (hm : m.initialized = false) (hf : m.ftdiInitialized = false)
    (h : (cts_monitor_is_ftdi_device cfg.serial_device w).1 ≠ 1
      ∨ w.ftdiInitOk = false ∨ w.ftdiUsbOpenOk = false ∨ w.ftdiBitmodeOk = false) :
    cts_monitor_init m cfg w = standard_serial_init { m with config := cfg } w := by
  obtain ⟨ini, so, ofp, cfg0, ls, irq, uf, fi⟩ := m
  replace hm : ini = false := hm
  replace hf : fi = false := hf
  subst hm; subst hf
  by_cases hdet : (cts_monitor_is_ftdi_device cfg.serial_device w).1 = 1
  · rcases h with h | h | h | h
    · exact absurd hdet h
    · simp [cts_monitor_init, cts_monitor_init_ftdi, hdet, h]
    · simp [cts_monitor_init, cts_monitor_init_ftdi, hdet, h]
    · simp [cts_monitor_init, cts_monitor_init_ftdi, hdet, h]
  · simp [cts_monitor_init, hdet]

/-- The standard-backend initialization never selects the FTDI backend. -/
theorem standard_init_not_ftdi (m0 : Monitor) (w : World) :
    ((standard_serial_init m0 w).2).usingFtdi = false := by
  rcases hof : m0.config.output_file with _ | p <;>
    rcases hio : w.ioctlStatus with _ | st <;>
    cases hfo : w.fopenOk <;> cases hop : w.openOk <;>
    cases htg : w.tcgetOk <;> cases hts : w.tcsetOk <;>
    simp [standard_serial_init, hof, hio, hfo, hop, htg, hts]

/-- A successful standard-backend initialization stores the decoded
initial `ioctl(TIOCMGET)` sample as `last_state`. -/
theorem standard_init_success (m0 : Monitor) (w : World)
    (h : (standard_serial_init m0 w).1 = 0) :
    ∃ st, w.ioctlStatus = some st
      ∧ ((standard_serial_init m0 w).2).lastState = read_signal_state st := by
  rcases hof : m0.config.output_file with _ | p <;>
    rcases hio : w.ioctlStatus with _ | st <;>
    cases hfo : w.fopenOk <;> cases hop : w.openOk <;>
    cases htg : w.tcgetOk <;> cases hts : w.tcsetOk <;>
    simp_all [standard_serial_init, hof, hio, hfo, hop, htg, hts]

/-- C5: a device path without the `/dev/ttyUSB` prefix never triggers USB
enumeration and always takes the standard-backend path of init; and
whenever FTDI detection does not positively identify an FTDI device, or
any step of the FTDI open fails, init is exactly the standard-backend
initialization (no error is surfaced for the FTDI failure), which never
selects the FTDI backend. -/
theorem backend_selection_policy (m : Monitor) (cfg : MonitorConfig) (w : World)
    (hm : m.initialized = false) (hf : m.ftdiInitialized = false) :
    (List.isPrefixOf "/dev/ttyUSB".toList cfg.serial_device.toList = false →
      cts_monitor_is_ftdi_device cfg.serial_device w = (0, false)
      ∧ cts_monitor_init m cfg w = standard_serial_init { m with config := cfg } w)
    ∧ ((cts_monitor_is_ftdi_device cfg.serial_device w).1 ≠ 1 →
      cts_monitor_init m cfg w = standard_serial_init { m with config := cfg } w)
    ∧ (w.ftdiInitOk = false ∨ w.ftdiUsbOpenOk = false ∨ w.ftdiBitmodeOk = false →
      cts_monitor_init m cfg w = standard_serial_init { m with config := cfg } w)
    ∧ ((standard_serial_init { m with config := cfg } w).2).usingFtdi = false := by
  refine ⟨?_, ?_, ?_, standard_init_not_ftdi _ _⟩
  · intro h
    have hdet : cts_monitor_is_ftdi_device cfg.serial_device w = (0, false) := by
      unfold cts_monitor_is_ftdi_device
      rw [h, if_pos rfl]
    refine ⟨hdet, init_fallback_eq m cfg w hm hf (Or.inl ?_)⟩
    rw [hdet]
    decide
  · intro h
    exact init_fallback_eq m cfg w hm hf (Or.inl h)
  · intro h
    rcases h with h | h | h
    · exact init_fallback_eq m cfg w hm hf (Or.inr (Or.inl h))
    · exact init_fallback_eq m cfg w hm hf (Or.inr (Or.inr (Or.inl h)))
    · exact init_fallback_eq m cfg w hm hf (Or.inr (Or.inr (Or.inr h)))

/-- A config naming a built-in serial port path. -/
def cfg_ttys0 : MonitorConfig := { zeroConfig with serial_device := "/dev/ttyS0" }

/-- C5 witness: for `/dev/ttyS0` the USB bus is never probed and init is
the standard-backend initialization. -/
theorem backend_selection_policy_witness :
    cts_monitor_is_ftdi_device cfg_ttys0.serial_device w_ok = (0, false)
    ∧ cts_monitor_init initialMonitor cfg_ttys0 w_ok
        = standard_serial_init { initialMonitor with config := cfg_ttys0 } w_ok := by
  have h := backend_selection_policy initialMonitor cfg_ttys0 w_ok rfl rfl
  exact h.1 (by decide)

/-- C3 counterexample: on the FTDI path a failed initial
`ftdi_read_pins` is ignored: init still returns 0 and enters the
initialized state while `last_state` keeps its prior (uncaptured) value. -/
theorem init_success_without_captured_sample :
    (cts_monitor_init initialMonitor cfg_ttyusb w_ftdi_nopins).1 = 0
    ∧ w_ftdi_nopins.ftdiPins = none
    ∧ ((cts_monitor_init initialMonitor cfg_ttyusb w_ftdi_nopins).2).initialized = true
    ∧ ((cts_monitor_init initialMonitor cfg_ttyusb w_ftdi_nopins).2).lastState
        = initialMonitor.lastState := by
  decide

/-- C3 amended: on the standard backend, init succeeds only if the first
sample was read and stored as `last_state`; on the FTDI backend a
successful initial pin read is stored, but a failed one is silently
ignored and `last_state` keeps its previous value. -/
theorem init_captures_first_sample_by_backend
    (m : Monitor) (cfg : MonitorConfig) (w : World)
    (hm : m.initialized = false) (hf : m.ftdiInitialized = false) :
    ((cts_monitor_init m cfg w).1 = 0 →
      ((cts_monitor_init m cfg w).2).usingFtdi = false →
      ∃ st, w.ioctlStatus = some st
        ∧ ((cts_monitor_init m cfg w).2).lastState = read_signal_state st)
    ∧ ((cts_monitor_init m cfg w).1 = 0 →
      ((cts_monitor_init m cfg w).2).usingFtdi = true →
      (∀ p, w.ftdiPins = some p →
        ((cts_monitor_init m cfg w).2).lastState = read_ftdi_pins p)
      ∧ (w.ftdiPins = none →
        ((cts_monitor_init m cfg w).2).lastState = m.lastState)) := by
  by_cases hdet : (cts_monitor_is_ftdi_device cfg.serial_device w).1 = 1
  case neg =>
    rw [init_fallback_eq m cfg w hm hf (Or.inl hdet)]
    constructor
    · intro h _
      exact standard_init_success _ _ h
    · intro _ huf
      rw [standard_init_not_ftdi] at huf
      exact absurd huf (by decide)
  case pos =>
    by_cases h1 : w.ftdiInitOk = true
    case neg =>
      rw [init_fallback_eq m cfg w hm hf
        (Or.inr (Or.inl (Bool.not_eq_true _ ▸ (by simpa using h1))))]
      constructor
      · intro h _
        exact standard_init_success _ _ h
      · intro _ huf
        rw [standard_init_not_ftdi] at huf
        exact absurd huf (by decide)
    case pos =>
      by_cases h2 : w.ftdiUsbOpenOk = true
      case neg =>
        rw [init_fallback_eq m cfg w hm hf
          (Or.inr (Or.inr (Or.inl (by simpa using h2))))]
        constructor
        · intro h _
          exact standard_init_success _ _ h
        · intro _ huf
          rw [standard_init_not_ftdi] at huf
          exact absurd huf (by decide)
      case pos =>
        by_cases h3 : w.ftdiBitmodeOk = true
        case neg =>
          rw [init_fallback_eq m cfg w hm hf
            (Or.inr (Or.inr (Or.inr (by simpa using h3))))]
          constructor
          · intro h _
            exact standard_init_success _ _ h
          · intro _ huf
            rw [standard_init_not_ftdi] at huf
            exact absurd huf (by decide)
        case pos =>
          obtain ⟨ini, so, ofp, cfg0, ls, irq, uf, fi⟩ := m
          replace hm : ini = false := hm
          replace hf : fi = false := hf
          subst hm; subst hf
          constructor
          · intro _ huf
            exfalso
            rcases hp : w.ftdiPins with _ | p <;>
              simp_all [cts_monitor_init, cts_monitor_init_ftdi, hdet, h1, h2, h3, hp]
          · intro _ _
            constructor
            · intro p hp
              simp [cts_monitor_init, cts_monitor_init_ftdi, hdet, h1, h2, h3, hp]
            · intro hp
              simp [cts_monitor_init, cts_monitor_init_ftdi, hdet, h1, h2, h3, hp]

/-- C3 amended witness: a successful standard init stores the decoded
initial sample. -/
theorem init_captures_first_sample_witness :
    ∃ st, w_ok.ioctlStatus = some st
      ∧ ((cts_monitor_init initialMonitor cfg_ttys0 w_ok).2).lastState
          = read_signal_state st := by
  have h := init_captures_first_sample_by_backend initialMonitor cfg_ttys0 w_ok rfl rfl
  exact h.1 (by decide) (by decide)

/-- C4: after a successful init on the FTDI path the configured output
destination (stdout here, since no file is named) is never opened:
`output_fp` remains NULL, contradicting the claim that the destination is
open and events are written to it after every successful init. -/
theorem ftdi_init_output_destination_not_opened :
    (cts_monitor_init initialMonitor cfg_ttyusb w_ftdi).1 = 0
    ∧ ((cts_monitor_init initialMonitor cfg_ttyusb w_ftdi).2).initialized = true
    ∧ cfg_ttyusb.output_file = none
    ∧ ((cts_monitor_init initialMonitor cfg_ttyusb w_ftdi).2).outputFp = OutDest.closed := by
  decide

/-- C2: a run in which the monitoring loop terminates because
`cts_monitor_update` reported a read failure still exits with code 0
(`EXIT_SUCCESS`), contradicting the claim that such a run exits
non-zero. -/
theorem read_failure_run_exits_zero :
    run_main ["/dev/ttyS0"] w_ok [none]
      = { exitCode := 0, initCalled := true, loopReadFailed := true } := by
  decide

/-- C7: an `-i` value parsing below 100 is rejected with exit code 1
before `cts_monitor_init` is called and independently of the hardware
world; a value of at least 100 is accepted as the polling interval; and
without `-i` the interval defaults to 1000. -/
theorem interval_minimum_enforced (s t : String) (w : World)
    (sched : List (Option Nat))
    (h1 : atoi s < 100) (h2 : 100 ≤ atoi t) :
    run_main ["-i", s, "/dev/ttyS0"] w sched
      = { exitCode := 1, initCalled := false, loopReadFailed := false }
    ∧ parse_args ["-i", t, "/dev/ttyS0"] parseStart
      = ParseOutcome.proceed
          { serial_device := "/dev/ttyS0", poll_interval_us := atoi t,
            time_format := TimeFormat.absolute, output_file := none,
            verbose := false, mode := MonitorMode.polling,
            device_type := DeviceType.standard }
    ∧ parse_args ["/dev/ttyS0"] parseStart
      = ParseOutcome.proceed
          { serial_device := "/dev/ttyS0", poll_interval_us := 1000,
            time_format := TimeFormat.absolute, output_file := none,
            verbose := false, mode := MonitorMode.polling,
            device_type := DeviceType.standard } := by
  have hs : parse_args ["-i", s, "/dev/ttyS0"] parseStart
      = if atoi s < 100 then ParseOutcome.exitEarly 1
        else parse_args ["/dev/ttyS0"] { parseStart with poll_interval_us := atoi s } := rfl
  have ht : parse_args ["-i", t, "/dev/ttyS0"] parseStart
      = if atoi t < 100 then ParseOutcome.exitEarly 1
        else parse_args ["/dev/ttyS0"] { parseStart with poll_interval_us := atoi t } := rfl
  refine ⟨?_, ?_, by decide⟩
  · unfold run_main
    rw [hs, if_pos h1]
  · rw [ht, if_neg (not_lt.mpr h2)]
    rfl

/-- C7 witness: `-i 50` is rejected before init, `-i 250` is accepted. -/
theorem interval_minimum_enforced_witness :
    run_main ["-i", "50", "/dev/ttyS0"] w_ok []
      = { exitCode := 1, initCalled := false, loopReadFailed := false }
    ∧ parse_args ["-i", "250", "/dev/ttyS0"] parseStart
      = ParseOutcome.proceed
          { serial_device := "/dev/ttyS0", poll_interval_us := atoi "250",
            time_format := TimeFormat.absolute, output_file := none,
            verbose := false, mode := MonitorMode.polling,
            device_type := DeviceType.standard } := by
  have h := interval_minimum_enforced "50" "250" w_ok [] (by decide) (by decide)
  exact ⟨h.1, h.2.1⟩

/-! ### Timestamp lemmas (C8) -/

theorem decDigit_isDigit (n : Nat) (h : n < 10) : (decDigit n).isDigit = true := by
  interval_cases n <;> decide

theorem natDecCharsAux_all_digit :
    ∀ (f n : Nat), (natDecCharsAux f n).all Char.isDigit = true := by
  intro f
  induction f with
  | zero => intro n; rfl
  | succ f ih =>
    intro n
    rw [natDecCharsAux]
    split
    · next h => simp [decDigit_isDigit n h]
    · next h =>
      simp [List.all_append, ih (n / 10), decDigit_isDigit (n % 10) (Nat.mod_lt _ (by omega))]

theorem natDecChars_all_digit (n : Nat) : (natDecChars n).all Char.isDigit = true :=
  natDecCharsAux_all_digit (n + 1) n

theorem natDecCharsAux_length_le :
    ∀ (f n k : Nat), 0 < k → n < 10 ^ k → (natDecCharsAux f n).length ≤ k := by
  intro f
  induction f with
  | zero => intro n k hk _; simp [natDecCharsAux]
  | succ f ih =>
    intro n k hk hn
    rw [natDecCharsAux]
    split
    · next h => simpa using hk
    · next h =>
      have hk2 : 2 ≤ k := by
        by_contra hc
        have hk1 : k = 1 := by omega
        subst hk1
        simp at hn
        omega
      have hpow : 10 ^ k = 10 ^ (k - 1) * 10 := by
        conv_lhs => rw [show k = (k - 1) + 1 by omega]
        rw [pow_succ]
      have hdiv : n / 10 < 10 ^ (k - 1) :=
        (Nat.div_lt_iff_lt_mul (by norm_num)).mpr (by omega)
      have := ih (n / 10) (k - 1) (by omega) hdiv
      simp only [List.length_append, List.length_cons, List.length_nil]
      omega

theorem natDecChars_length_le (n k : Nat) (h0 : 0 < k) (hn : n < 10 ^ k) :
    (natDecChars n).length ≤ k :=
  natDecCharsAux_length_le (n + 1) n k h0 hn

theorem zeroPadLeft_length (k : Nat) (s : List Char) (h : s.length ≤ k) :
    (zeroPadLeft k s).length = k := by
  simp [zeroPadLeft]
  omega

theorem zeroPadLeft_all_digit (k : Nat) (s : List Char)
    (h : s.all Char.isDigit = true) :
    (zeroPadLeft k s).all Char.isDigit = true := by
  simp only [zeroPadLeft, List.all_append, h, Bool.and_true]
  simp only [List.all_eq_true]
  intro c hc
  rw [List.eq_of_mem_replicate hc]
  decide

theorem int_tdiv_cast1000 (m : Nat) : ((m : Nat) : Int).tdiv 1000 = ((m / 1000 : Nat) : Int) := rfl

theorem int_tdiv_cast1e6 (m : Nat) :
    ((m : Nat) : Int).tdiv 1000000 = ((m / 1000000 : Nat) : Int) := rfl

theorem int_tmod_cast1e6 (m : Nat) :
    ((m : Nat) : Int).tmod 1000000 = ((m % 1000000 : Nat) : Int) := rfl

theorem printf_lld_cast (n : Nat) : printf_lld ((n : Nat) : Int) = String.mk (natDecChars n) := by
  unfold printf_lld
  rw [if_neg (by exact Int.not_lt.mpr (by exact_mod_cast Nat.zero_le n))]
  simp

theorem printf_06lld_cast (n : Nat) :
    printf_06lld ((n : Nat) : Int) = String.mk (zeroPadLeft 6 (natDecChars n)) := by
  unfold printf_06lld
  rw [if_neg (by exact Int.not_lt.mpr (by exact_mod_cast Nat.zero_le n))]
  simp

theorem get_timestamp_rel_self (t : Timespec) : get_timestamp_rel t t = "0.000000" := by
  simp [get_timestamp_rel]
  decide

/-- The printf tail of the relative formatter, on values known
non-negative. -/
theorem rel_format_core (S A : Int) (sN a : Nat)
    (hs : S = (sN : Int)) (ha : A = (a : Int)) :
    printf_lld ((S * 1000000 + A.tdiv 1000).tdiv 1000000) ++ "." ++
      printf_06lld ((S * 1000000 + A.tdiv 1000).tmod 1000000)
    = String.mk (natDecChars ((sN * 1000000 + a / 1000) / 1000000)) ++ "." ++
      String.mk (zeroPadLeft 6 (natDecChars ((sN * 1000000 + a / 1000) % 1000000))) := by
  subst hs; subst ha
  rw [int_tdiv_cast1000]
  have harg : ((sN : Int)) * 1000000 + ((a / 1000 : Nat) : Int)
      = ((sN * 1000000 + a / 1000 : Nat) : Int) := by push_cast; ring
  rw [harg, int_tdiv_cast1e6, int_tmod_cast1e6, printf_lld_cast, printf_06lld_cast]

/-- C8: in relative mode, for every non-negative elapsed wall-clock time
the formatted timestamp is the whole-second count, a dot, and exactly six
zero-padded microsecond digits; at zero elapsed time it is `0.000000`. -/
theorem relative_timestamp_format (now start : Timespec)
    (hn0 : 0 ≤ now.nsec) (hn1 : now.nsec < 1000000000)
    (hs0 : 0 ≤ start.nsec) (hs1 : start.nsec < 1000000000)
    (hle : start.sec * 1000000000 + start.nsec ≤ now.sec * 1000000000 + now.nsec) :
    ∃ us : Nat,
      (us : Int) = (now.sec * 1000000000 + now.nsec
          - (start.sec * 1000000000 + start.nsec)).tdiv 1000
      ∧ get_timestamp_rel now start
          = String.mk (natDecChars (us / 1000000)) ++ "." ++
            String.mk (zeroPadLeft 6 (natDecChars (us % 1000000)))
      ∧ (String.mk (zeroPadLeft 6 (natDecChars (us % 1000000)))).length = 6
      ∧ (zeroPadLeft 6 (natDecChars (us % 1000000))).all Char.isDigit = true
      ∧ (now = start → get_timestamp_rel now start = "0.000000") := by
  have hsm : ∀ l : List Char, (String.mk l).length = l.length := fun l => rfl
  by_cases hd : now.nsec - start.nsec < 0
  · have hA0 : 0 ≤ now.nsec - start.nsec + 1000000000 := by omega
    have hS0 : 0 ≤ now.sec - start.sec - 1 := by omega
    obtain ⟨a, ha⟩ := Int.eq_ofNat_of_zero_le hA0
    obtain ⟨sN, hsn⟩ := Int.eq_ofNat_of_zero_le hS0
    have hm6 : (sN * 1000000 + a / 1000) % 1000000 < 1000000 :=
      Nat.mod_lt _ (by norm_num)
    have hlen : (natDecChars ((sN * 1000000 + a / 1000) % 1000000)).length ≤ 6 :=
      natDecChars_length_le _ 6 (by norm_num) (by simpa using hm6)
    refine ⟨sN * 1000000 + a / 1000, ?_, ?_, ?_, ?_, ?_⟩
    · have helapsed : now.sec * 1000000000 + now.nsec
          - (start.sec * 1000000000 + start.nsec)
          = ((sN * 1000000000 + a : Nat) : Int) := by push_cast; omega
      rw [helapsed, int_tdiv_cast1000]
      exact_mod_cast congrArg (Nat.cast : Nat → Int)
        (by omega : sN * 1000000 + a / 1000 = (sN * 1000000000 + a) / 1000)
    · simp only [get_timestamp_rel]
      rw [if_pos hd, if_pos hd, hsn, ha]
      exact rel_format_core _ _ sN a rfl rfl
    · rw [hsm, zeroPadLeft_length 6 _ hlen]
    · exact zeroPadLeft_all_digit 6 _ (natDecChars_all_digit _)
    · intro h
      rw [h]
      exact get_timestamp_rel_self start
  · have hA0 : 0 ≤ now.nsec - start.nsec := by omega
    have hS0 : 0 ≤ now.sec - start.sec := by omega
    obtain ⟨a, ha⟩ := Int.eq_ofNat_of_zero_le hA0
    obtain ⟨sN, hsn⟩ := Int.eq_ofNat_of_zero_le hS0
    have hm6 : (sN * 1000000 + a / 1000) % 1000000 < 1000000 :=
      Nat.mod_lt _ (by norm_num)
    have hlen : (natDecChars ((sN * 1000000 + a / 1000) % 1000000)).length ≤ 6 :=
      natDecChars_length_le _ 6 (by norm_num) (by simpa using hm6)
    refine ⟨sN * 1000000 + a / 1000, ?_, ?_, ?_, ?_, ?_⟩
    · have helapsed : now.sec * 1000000000 + now.nsec
          - (start.sec * 1000000000 + start.nsec)
          = ((sN * 1000000000 + a : Nat) : Int) := by push_cast; omega
      rw [helapsed, int_tdiv_cast1000]
      exact_mod_cast congrArg (Nat.cast : Nat → Int)
        (by omega : sN * 1000000 + a / 1000 = (sN * 1000000000 + a) / 1000)
    · simp only [get_timestamp_rel]
      rw [if_neg hd, if_neg hd, hsn, ha]
      exact rel_format_core _ _ sN a rfl rfl
    · rw [hsm, zeroPadLeft_length 6 _ hlen]
    · exact zeroPadLeft_all_digit 6 _ (natDecChars_all_digit _)
    · intro h
      rw [h]
      exact get_timestamp_rel_self start

/-- C8 witness: 2.5 seconds of elapsed time formats as `2.500000`, and a
zero elapsed time as `0.000000`. -/
theorem relative_timestamp_format_witness :
    (∃ us : Nat,
      (us : Int) = (((7 : Int) * 1000000000 + 600000000)
          - ((5 : Int) * 1000000000 + 100000000)).tdiv 1000
      ∧ get_timestamp_rel { sec := 7, nsec := 600000000 } { sec := 5, nsec := 100000000 }
          = String.mk (natDecChars (us / 1000000)) ++ "." ++
            String.mk (zeroPadLeft 6 (natDecChars (us % 1000000)))
      ∧ (String.mk (zeroPadLeft 6 (natDecChars (us % 1000000)))).length = 6
      ∧ (zeroPadLeft 6 (natDecChars (us % 1000000))).all Char.isDigit = true)
    ∧ get_timestamp_rel { sec := 5, nsec := 123 } { sec := 5, nsec := 123 } = "0.000000" := by
  have h := relative_timestamp_format
    { sec := 7, nsec := 600000000 } { sec := 5, nsec := 100000000 }
    (by norm_num) (by norm_num) (by norm_num) (by norm_num) (by norm_num)
  have h0 := relative_timestamp_format
    { sec := 5, nsec := 123 } { sec := 5, nsec := 123 }
    (by norm_num) (by norm_num) (by norm_num) (by norm_num) (by norm_num)
  obtain ⟨us, h1, h2, h3, h4, _⟩ := h
  obtain ⟨us0, _, _, _, _, hz⟩ := h0
  exact ⟨⟨us, h1, h2, h3, h4⟩, hz rfl⟩

end CtsSerialMonitor
